import Mathlib

/-!
Shallow embedding of the client-side core of the traffic-management frontend:
upload validation (UploadPage handleFileSelect), the polling interval policy
(VideoDetailPage useQuery refetchInterval), the start-processing guard
(VideoDetailPage handleProcess), the processing-config defaulting
(videoAPI.process), and the calibration capture engine
(CalibrationPage handleCanvasClick, handleSaveCalibration, the pre-fill
effect, and UploadPage uploadMutation onError).

Numbers the code treats as exact decimals are modelled as rationals; JS
strings are modelled as Lean strings or char lists; a JS value that can be
undefined or NaN is modelled as an Option.
-/

namespace ITMS

/-- A selected file as read by the code: the name and size fields of a File. -/
structure JSFile where
  name : String
  size : Nat
deriving Repr, DecidableEq

/-- JS String.prototype.lastIndexOf for a one-character needle, on the char
list of the string: the highest index at which the character occurs, or -1
when it does not occur. -/
def jsLastIndexOf (c : Char) : List Char → Int
  | [] => -1
  | a :: rest =>
    let r := jsLastIndexOf c rest
    if r ≥ 0 then r + 1
    else if a = c then 0 else -1

/-- JS String.prototype.substring with one argument: a negative start index is
clamped to 0, and a start beyond the length yields the empty string. -/
def jsSubstring (l : List Char) (i : Int) : List Char :=
  l.drop i.toNat

/-- JS String.prototype.toLowerCase, restricted to the ASCII mapping, which is
all that the allow-list comparison in handleFileSelect can depend on. -/
def jsToLowerCase (l : List Char) : List Char :=
  l.map Char.toLower

/-- The allow-list in UploadPage handleFileSelect:
validTypes = [".mp4", ".avi", ".mov", ".mkv", ".wmv"]. -/
def validTypes : List (List Char) :=
  [".mp4".toList, ".avi".toList, ".mov".toList, ".mkv".toList, ".wmv".toList]

/-- The extension as computed in handleFileSelect:
file.name.substring(file.name.lastIndexOf(".")).toLowerCase(). -/
def fileExt (name : String) : List Char :=
  jsToLowerCase (jsSubstring name.toList (jsLastIndexOf '.' name.toList))

/-- The size ceiling in handleFileSelect: maxSize = 500 * 1024 * 1024. -/
def maxSize : Nat := 500 * 1024 * 1024

/-- UploadPage handleFileSelect: rejects a file whose computed extension is
outside validTypes, then a file whose size exceeds maxSize; each rejection
alerts and returns without storing the file (modelled as none, the local
ValidationError outcome). Only a stored file (some file) is ever passed to
uploadMutation by handleUpload, so none also means no network request is
issued for that file. JS Array.prototype.includes is list membership. -/
def handleFileSelect (file : JSFile) : Option JSFile :=
  if fileExt file.name ∉ validTypes then none
  else if file.size > maxSize then none
  else some file

/-- The Job fields of the server snapshot that the embedded handlers read.
The status is the wire string: uploaded, processing, completed or failed. -/
structure Job where
  id : Nat
  status : String
  is_calibrated : Bool
deriving Repr, DecidableEq

/-- The refetchInterval callback of the VideoDetailPage useQuery: with a
snapshot whose status is processing or uploaded it returns 2000 (milliseconds,
the fast cadence); otherwise it returns false, modelled as none, which stops
refetching. With no data yet (video undefined) the optional chaining makes
both comparisons false, so it also returns false. -/
def refetchInterval (video : Option Job) : Option Nat :=
  match video with
  | some v => if v.status = "processing" ∨ v.status = "uploaded" then some 2000 else none
  | none => none

/-- Whether a freshly observed status keeps the poll loop alive: true exactly
when refetchInterval on that snapshot returns a number. -/
def continuesPolling (s : String) : Bool :=
  (refetchInterval (some { id := 0, status := s, is_calibrated := false })).isSome

/-- The reads the poll loop issues against a job whose successive server-side
statuses are the given list: the query runs once on mount, and after a read
observes status s it schedules another read exactly when continuesPolling s;
the result is the list of statuses actually observed by issued reads. -/
def observedReads : List String → List String
  | [] => []
  | s :: rest => s :: (if continuesPolling s then observedReads rest else [])

/-- The caller-visible config argument of videoAPI.process: each field may be
omitted (undefined), modelled as none. -/
structure ProcessConfigInput where
  confidence_threshold : Option ℚ
  iou_threshold : Option ℚ
  enable_speed_calculation : Option Bool
  speed_limit : Option ℚ
deriving Repr, DecidableEq

/-- The POST body that videoAPI.process transmits: all four fields present. -/
structure ProcessRequestBody where
  confidence_threshold : ℚ
  iou_threshold : ℚ
  enable_speed_calculation : Bool
  speed_limit : ℚ
deriving Repr, DecidableEq

/-- The JS expression `x || d` for a possibly-omitted numeric field: an absent
value and the falsy number 0 both fall back to the default. -/
def jsOrQ (x : Option ℚ) (d : ℚ) : ℚ :=
  match x with
  | none => d
  | some v => if v = 0 then d else v

/-- The JS expression `x || d` for a possibly-omitted boolean field. -/
def jsOrB (x : Option Bool) (d : Bool) : Bool :=
  match x with
  | none => d
  | some v => if v then v else d

namespace videoAPI

/-- videoAPI.process from services/api.js: builds the POST body for
/videos/id/process, defaulting each field with `||` — 0.3, 0.7, false, 80.0. -/
def process (config : ProcessConfigInput) : ProcessRequestBody :=
  { confidence_threshold := jsOrQ config.confidence_threshold 0.3
    iou_threshold := jsOrQ config.iou_threshold 0.7
    enable_speed_calculation := jsOrB config.enable_speed_calculation false
    speed_limit := jsOrQ config.speed_limit 80.0 }

end videoAPI

/-- The processingConfig state of VideoDetailPage: initialized with all four
fields set, so every field reaches videoAPI.process as a present value. -/
structure ProcessingConfig where
  confidence_threshold : ℚ
  iou_threshold : ℚ
  enable_speed_calculation : Bool
  speed_limit : ℚ
deriving Repr, DecidableEq

/-- The JS object literal the page passes to videoAPI.process(id, cfg):
all fields present. -/
def ProcessingConfig.toInput (c : ProcessingConfig) : ProcessConfigInput :=
  { confidence_threshold := some c.confidence_threshold
    iou_threshold := some c.iou_threshold
    enable_speed_calculation := some c.enable_speed_calculation
    speed_limit := some c.speed_limit }

/-- The externally visible outcome of the start-processing button click. -/
inductive ProcessAction where
  /-- navigate to /videos/id/calibrate, no network request: the local
  StateConflictError handling routed to the calibration flow. -/
  | navigateToCalibrate (videoId : Nat)
  /-- the processMutation fires: POST /videos/id/process with this body. -/
  | requestStartProcessing (videoId : Nat) (body : ProcessRequestBody)
  /-- the user declined the window.confirm dialog: nothing happens. -/
  | noRequest
deriving Repr, DecidableEq

/-- VideoDetailPage handleProcess: if speed calculation is enabled and the job
is not calibrated, navigate to the calibration page and return; otherwise ask
for confirmation and, if confirmed, fire processMutation, whose mutationFn is
videoAPI.process(id, processingConfig). -/
def handleProcess (video : Job) (processingConfig : ProcessingConfig) (confirmed : Bool) : ProcessAction :=
  if processingConfig.enable_speed_calculation && !video.is_calibrated then
    ProcessAction.navigateToCalibrate video.id
  else if confirmed then
    ProcessAction.requestStartProcessing video.id (videoAPI.process processingConfig.toInput)
  else
    ProcessAction.noRequest

/-- The geometry the canvas click handler reads: canvas.width and
canvas.height (set by drawCanvas to the native image.width and image.height),
and the getBoundingClientRect of the displayed surface. -/
structure Canvas where
  width : ℚ
  height : ℚ
  rectLeft : ℚ
  rectTop : ℚ
  rectWidth : ℚ
  rectHeight : ℚ
deriving Repr, DecidableEq

/-- CalibrationPage handleCanvasClick: returns the updated points state. With
no canvas or 4 or more points recorded it returns early; otherwise it appends
the clicked position rescaled from display space to canvas (native image)
space, each axis independently. -/
def handleCanvasClick (canvas : Option Canvas) (points : List (ℚ × ℚ))
    (clientX clientY : ℚ) : List (ℚ × ℚ) :=
  match canvas with
  | none => points
  | some c =>
    if points.length ≥ 4 then points
    else
      points ++ [((clientX - c.rectLeft) / c.rectWidth * c.width,
                  (clientY - c.rectTop) / c.rectHeight * c.height)]

/-- The POST body sent by saveMutation to /videos/id/calibrate. The object
literal built by handleSaveCalibration holds only points and
reference_distance; mode is an Option so the embedding can state whether the
key is present at all. -/
structure SavePayload where
  mode : Option String
  points : List (ℚ × ℚ)
  reference_distance : ℚ
deriving Repr, DecidableEq

/-- The documented calibration wire shape: mode "four_point" present, exactly
4 points, and a (numeric) reference distance. Stated from the spec, to be
compared with what handleSaveCalibration actually transmits. -/
def conformsWireShape (p : SavePayload) : Prop :=
  p.mode = some "four_point" ∧ p.points.length = 4

instance : DecidablePred conformsWireShape := fun p => by
  unfold conformsWireShape
  infer_instance

/-- CalibrationPage handleSaveCalibration: alerts and returns (none, the local
ValidationError outcome, no request) unless exactly 4 points are recorded and
the reference distance is a positive number; otherwise fires saveMutation with
the body consisting of points and reference_distance only. The reference
distance is an Option: none models the NaN or undefined value a cleared input
produces, which is falsy in the `!referenceDistance` test. -/
def handleSaveCalibration (points : List (ℚ × ℚ)) (referenceDistance : Option ℚ) :
    Option SavePayload :=
  if points.length ≠ 4 then none
  else
    match referenceDistance with
    | none => none
    | some d => if d ≤ 0 then none
                else some { mode := none, points := points, reference_distance := d }

/-- The calibration_data object of a fetched calibration, as read by the
pre-fill effect: each field may be absent. -/
structure CalibData where
  mode : Option String
  points : Option (List (ℚ × ℚ))
  reference_distance : Option ℚ
deriving Repr, DecidableEq

/-- The response of videoAPI.getCalibration as read by CalibrationPage: the
pre-fill effect looks under calibration.calibration_data, the warning banner
reads is_calibrated. -/
structure FetchedCalibration where
  calibration_data : Option CalibData
  is_calibrated : Option Bool
deriving Repr, DecidableEq

/-- The CalibrationPage pre-fill effect: when a fetched calibration has
calibration_data.mode equal to "four_point", it copies the saved points into
the points state if there are exactly 4 of them, and copies the saved
reference distance if it is present (truthy) and positive; every other field
keeps its prior value. Returns the (points, referenceDistance) state after
the effect runs. -/
def prefillFromCalibration (calibration : Option FetchedCalibration)
    (points : List (ℚ × ℚ)) (referenceDistance : ℚ) : List (ℚ × ℚ) × ℚ :=
  match calibration with
  | none => (points, referenceDistance)
  | some c =>
    match c.calibration_data with
    | none => (points, referenceDistance)
    | some cd =>
      if cd.mode = some "four_point" then
        let savedPoints := cd.points.getD []
        let points1 := if savedPoints.length = 4 then savedPoints else points
        let dist1 := match cd.reference_distance with
          | some d => if d ≠ 0 ∧ d > 0 then d else referenceDistance
          | none => referenceDistance
        (points1, dist1)
      else (points, referenceDistance)

/-- The UploadPage state cells touched by the upload mutation callbacks. -/
structure UploadPageState where
  selectedFile : Option JSFile
  uploadProgress : Nat
  uploadedVideoId : Option Nat
  pollingVideo : Option Nat
  alerts : List String
deriving Repr, DecidableEq

/-- The uploadMutation onError callback: alert the failure message, set the
progress back to 0, and set the selected file to null. -/
def uploadOnError (s : UploadPageState) (errMsg : String) : UploadPageState :=
  { s with
    alerts := s.alerts ++ [String.append "Upload failed: " errMsg]
    uploadProgress := 0
    selectedFile := none }

end ITMS

namespace ITMS

/-! Helper lemmas. -/

theorem toLower_eq_dot {c : Char} (h : c.toLower = '.') : c = '.' := by
  simp only [Char.toLower] at h
  split at h
  · exfalso
    rename_i hc
    have hv : (Char.ofNat (c.toNat + 32)).toNat = c.toNat + 32 := by
      rw [Char.ofNat, dif_pos (Or.inl (by omega))]
      simp [Char.ofNatAux, Char.toNat, UInt32.ofNat', UInt32.toNat, BitVec.toNat_ofNatLt]
    rw [h] at hv
    have hd : ('.' : Char).toNat = 46 := by decide
    omega
  · exact h

theorem jsLastIndexOf_of_not_mem {c : Char} {l : List Char} (h : c ∉ l) :
    jsLastIndexOf c l = -1 := by
  induction l with
  | nil => rfl
  | cons a rest ih =>
    rw [List.mem_cons, not_or] at h
    simp [jsLastIndexOf, ih h.2, Ne.symm h.1]

theorem jsLastIndexOf_append {post : List Char} (h : '.' ∉ post) (pre : List Char) :
    jsLastIndexOf '.' (pre ++ '.' :: post) = pre.length := by
  induction pre with
  | nil => simp [jsLastIndexOf, jsLastIndexOf_of_not_mem h]
  | cons a pre' ih => simp [jsLastIndexOf, ih]

theorem fileExt_no_dot {name : String} (h : '.' ∉ name.toList) :
    fileExt name = jsToLowerCase name.toList := by
  unfold fileExt jsSubstring
  rw [jsLastIndexOf_of_not_mem h]
  rfl

theorem jsOrQ_pos {x : Option ℚ} {d : ℚ} (h : ∀ v, x = some v → 0 < v) :
    jsOrQ x d = x.getD d := by
  cases x with
  | none => rfl
  | some v => simp [jsOrQ, (h v rfl).ne']

theorem jsOrB_false (x : Option Bool) : jsOrB x false = x.getD false := by
  cases x with
  | none => rfl
  | some v => cases v <;> rfl

end ITMS

namespace ITMS

/-! Claim theorems. -/

/-- C1: while the observed status of a job is processing or uploaded the
synchronizer re-reads at the fast 2000 ms interval; observing completed or
failed stops polling: a terminal status yields interval none and the trace of
issued reads ends at the first terminal observation, with zero further reads.
On the documented sequence uploaded, processing, processing, completed the
loop issues exactly those four reads. -/
theorem statusSync_poll_policy :
    (∀ v : Job, (v.status = "processing" ∨ v.status = "uploaded") →
      refetchInterval (some v) = some 2000)
    ∧ (∀ v : Job, (v.status = "completed" ∨ v.status = "failed") →
      refetchInterval (some v) = none)
    ∧ (∀ (s : String) (rest : List String), (s = "completed" ∨ s = "failed") →
      observedReads (s :: rest) = [s])
    ∧ (∀ rest : List String,
      observedReads ("uploaded" :: "processing" :: "processing" :: "completed" :: rest)
        = ["uploaded", "processing", "processing", "completed"]) := by
  refine ⟨?_, ?_, ?_, ?_⟩
  · intro v h
    rcases h with h | h <;> simp [refetchInterval, h]
  · intro v h
    rcases h with h | h <;> simp [refetchInterval, h]
  · intro s rest h
    rcases h with h | h <;> subst h <;>
      simp [observedReads, continuesPolling, refetchInterval]
  · intro rest
    simp [observedReads, continuesPolling, refetchInterval]

/-- Witness for statusSync_poll_policy at concrete statuses and traces. -/
theorem statusSync_poll_policy_witness :
    refetchInterval (some { id := 1, status := "processing", is_calibrated := false }) = some 2000
    ∧ refetchInterval (some { id := 1, status := "completed", is_calibrated := false }) = none
    ∧ observedReads ["completed", "processing"] = ["completed"]
    ∧ observedReads ["uploaded", "processing", "processing", "completed"]
        = ["uploaded", "processing", "processing", "completed"] :=
  ⟨statusSync_poll_policy.1 _ (Or.inl rfl),
   statusSync_poll_policy.2.1 _ (Or.inl rfl),
   statusSync_poll_policy.2.2.1 _ _ (Or.inl rfl),
   statusSync_poll_policy.2.2.2 []⟩

/-- C2: a click accepted at display position (clientX - rectLeft,
clientY - rectTop) on a surface displayed at rectWidth by rectHeight backing a
native canvas of width by height records the image-space point scaled by
nativeSize / displayedSize independently on each axis. -/
theorem canvasClick_records_scaled_point (c : Canvas) (points : List (ℚ × ℚ))
    (clientX clientY : ℚ) (h : points.length < 4) :
    handleCanvasClick (some c) points clientX clientY
      = points ++ [((clientX - c.rectLeft) * c.width / c.rectWidth,
                    (clientY - c.rectTop) * c.height / c.rectHeight)] := by
  simp only [handleCanvasClick]
  rw [if_neg (by omega : ¬ points.length ≥ 4), div_mul_eq_mul_div, div_mul_eq_mul_div]

/-- Witness for canvasClick_records_scaled_point: a 640x360 rendering of a
1920x1080 frame maps the click (320, 180) to (960, 540). -/
theorem canvasClick_records_scaled_point_witness :
    handleCanvasClick
        (some { width := 1920, height := 1080, rectLeft := 0, rectTop := 0,
                rectWidth := 640, rectHeight := 360 }) [] 320 180
      = [] ++ [((320 - 0) * 1920 / 640, (180 - 0) * 1080 / 360)] :=
  canvasClick_records_scaled_point _ [] 320 180 (by decide)

/-- C5: with speed calculation enabled and an uncalibrated job, the click
handler navigates to the calibration flow and in particular never produces the
start-processing network request. -/
theorem handleProcess_uncalibrated_speed (video : Job) (cfg : ProcessingConfig)
    (confirmed : Bool) (hs : cfg.enable_speed_calculation = true)
    (hc : video.is_calibrated = false) :
    handleProcess video cfg confirmed = ProcessAction.navigateToCalibrate video.id
    ∧ ∀ (vid : Nat) (body : ProcessRequestBody),
        handleProcess video cfg confirmed ≠ ProcessAction.requestStartProcessing vid body := by
  have h : handleProcess video cfg confirmed = ProcessAction.navigateToCalibrate video.id := by
    unfold handleProcess
    rw [hs, hc]
    simp
  refine ⟨h, fun vid body hcontra => ?_⟩
  rw [h] at hcontra
  exact ProcessAction.noConfusion hcontra

/-- Witness for handleProcess_uncalibrated_speed at a concrete job and
config. -/
theorem handleProcess_uncalibrated_speed_witness :
    handleProcess { id := 7, status := "uploaded", is_calibrated := false }
        { confidence_threshold := 0.3, iou_threshold := 0.7,
          enable_speed_calculation := true, speed_limit := 80 } true
      = ProcessAction.navigateToCalibrate 7 :=
  (handleProcess_uncalibrated_speed _ _ true rfl rfl).1

/-- C6: a file whose computed extension is outside the allow-list, or whose
size exceeds the 500MB ceiling, is rejected locally by handleFileSelect (the
ValidationError path): no file is stored, so no upload request is ever issued
for it. -/
theorem handleFileSelect_rejects_invalid (file : JSFile)
    (h : fileExt file.name ∉ validTypes ∨ file.size > maxSize) :
    handleFileSelect file = none := by
  rcases h with h | h
  · simp [handleFileSelect, h]
  · by_cases he : fileExt file.name ∈ validTypes
    · simp [handleFileSelect, he, h]
    · simp [handleFileSelect, he]

/-- Witness for handleFileSelect_rejects_invalid: a .txt file is rejected, as
is an oversized .mp4. -/
theorem handleFileSelect_rejects_invalid_witness :
    handleFileSelect { name := "a.txt", size := 5 } = none :=
  handleFileSelect_rejects_invalid _ (Or.inl (by decide))

end ITMS

namespace ITMS

/-- C7: the recorded point set never exceeds 4 points: a click with 4 or more
points recorded leaves the set unchanged, an accepted click with fewer than 4
appends exactly one point at the end, and the at-most-4 invariant is
preserved. -/
theorem canvasClick_caps_points (c : Canvas) (points : List (ℚ × ℚ)) (x y : ℚ) :
    (points.length ≥ 4 → handleCanvasClick (some c) points x y = points)
    ∧ (points.length < 4 → ∃ p, handleCanvasClick (some c) points x y = points ++ [p])
    ∧ (points.length ≤ 4 → (handleCanvasClick (some c) points x y).length ≤ 4) := by
  by_cases h4 : points.length ≥ 4
  · refine ⟨fun _ => ?_, fun hlt => absurd h4 (by omega), fun _ => ?_⟩
    · simp only [handleCanvasClick, if_pos h4]
    · simp only [handleCanvasClick, if_pos h4]
      omega
  · refine ⟨fun hge => absurd hge h4, fun _ => ?_, fun _ => ?_⟩
    · exact ⟨((x - c.rectLeft) / c.rectWidth * c.width,
              (y - c.rectTop) / c.rectHeight * c.height),
            by simp only [handleCanvasClick, if_neg h4]⟩
    · simp only [handleCanvasClick, if_neg h4, List.length_append, List.length_cons,
        List.length_nil]
      omega

/-- Witness for canvasClick_caps_points: a 5th click is a no-op and a click on
an empty set keeps the invariant. -/
theorem canvasClick_caps_points_witness :
    handleCanvasClick
        (some { width := 100, height := 100, rectLeft := 0, rectTop := 0,
                rectWidth := 100, rectHeight := 100 })
        [(0,0),(1,1),(2,2),(3,3)] 5 5 = [(0,0),(1,1),(2,2),(3,3)]
    ∧ (handleCanvasClick
        (some { width := 100, height := 100, rectLeft := 0, rectTop := 0,
                rectWidth := 100, rectHeight := 100 }) [] 5 5).length ≤ 4 :=
  ⟨(canvasClick_caps_points _ _ 5 5).1 (by decide),
   (canvasClick_caps_points _ _ 5 5).2.2 (by decide)⟩

/-- C3 counterexample: the body actually persisted for a valid save of 4
points with reference distance 10 carries no mode key at all, so it does not
conform to the documented wire shape with mode "four_point". -/
theorem saveCalibration_payload_lacks_mode :
    handleSaveCalibration [(0,0),(1,0),(1,1),(0,1)] (some 10)
      = some { mode := none, points := [(0,0),(1,0),(1,1),(0,1)], reference_distance := 10 }
    ∧ ¬ conformsWireShape
        { mode := none, points := [(0,0),(1,0),(1,1),(0,1)], reference_distance := 10 } := by
  constructor
  · rfl
  · decide

/-- C3 (amended): every body persisted by save() holds exactly 4 points and a
positive numeric reference_distance but omits the mode key; and a fetched
calibration whose calibration_data has mode "four_point", exactly 4 points and
a positive reference distance is loaded into the editable points and
reference-distance state when the calibration screen opens. -/
theorem calibration_save_and_prefill_shape :
    (∀ (pts : List (ℚ × ℚ)) (rd : Option ℚ) (payload : SavePayload),
      handleSaveCalibration pts rd = some payload →
      payload.points.length = 4 ∧ 0 < payload.reference_distance ∧ payload.mode = none)
    ∧ (∀ (fc : FetchedCalibration) (cd : CalibData) (pts0 : List (ℚ × ℚ)) (rd0 : ℚ)
        (savedPts : List (ℚ × ℚ)) (d : ℚ),
        fc.calibration_data = some cd →
        cd.mode = some "four_point" →
        cd.points = some savedPts → savedPts.length = 4 →
        cd.reference_distance = some d → 0 < d →
        prefillFromCalibration (some fc) pts0 rd0 = (savedPts, d)) := by
  constructor
  · intro pts rd payload h
    cases rd with
    | none => simp [handleSaveCalibration] at h
    | some d =>
      by_cases hlen : pts.length ≠ 4
      · simp [handleSaveCalibration, hlen] at h
      · by_cases hd : d ≤ 0
        · simp [handleSaveCalibration, hlen, hd] at h
        · simp [handleSaveCalibration, hlen, hd] at h
          subst h
          exact ⟨by show pts.length = 4; omega, not_le.mp hd, rfl⟩
  · intro fc cd pts0 rd0 savedPts d h1 h2 h3 h4 h5 h6
    simp [prefillFromCalibration, h1, h2, h3, h4, h5, h6, h6.ne']

/-- Witness for calibration_save_and_prefill_shape at a concrete save and a
concrete fetched calibration. -/
theorem calibration_save_and_prefill_shape_witness :
    (({ mode := none, points := [(0,0),(2,0),(2,2),(0,2)], reference_distance := 12 } : SavePayload).points.length = 4
      ∧ 0 < ({ mode := none, points := [(0,0),(2,0),(2,2),(0,2)], reference_distance := 12 } : SavePayload).reference_distance
      ∧ ({ mode := none, points := [(0,0),(2,0),(2,2),(0,2)], reference_distance := 12 } : SavePayload).mode = none)
    ∧ prefillFromCalibration
        (some { calibration_data := some { mode := some "four_point", points := some [(0,0),(2,0),(2,2),(0,2)], reference_distance := some 12 }, is_calibrated := some true }) [] 10
      = ([(0,0),(2,0),(2,2),(0,2)], 12) :=
  ⟨calibration_save_and_prefill_shape.1 [(0,0),(2,0),(2,2),(0,2)] (some 12) _ rfl,
   calibration_save_and_prefill_shape.2 _ _ [] 10 _ 12 rfl rfl rfl (by decide) rfl (by decide)⟩

/-- C4: save() with a point set whose length is not 4, or with an absent or
non-positive reference distance, fails locally (no request body is built); a
request is sent exactly when there are 4 points and the distance is a positive
number, and then the body carries those points and that distance. -/
theorem saveCalibration_validation (points : List (ℚ × ℚ)) (rd : Option ℚ) :
    ((points.length ≠ 4 ∨ rd = none ∨ ∃ d, rd = some d ∧ d ≤ 0) →
      handleSaveCalibration points rd = none)
    ∧ (points.length = 4 → ∀ d, rd = some d → 0 < d →
      handleSaveCalibration points rd
        = some { mode := none, points := points, reference_distance := d }) := by
  constructor
  · intro h
    rcases h with h | h | ⟨d, hd, hle⟩
    · simp [handleSaveCalibration, h]
    · subst h
      simp [handleSaveCalibration]
    · subst hd
      simp [handleSaveCalibration, hle]
  · intro hlen d hd hpos
    subst hd
    simp [handleSaveCalibration, hlen, not_le.mpr hpos]

/-- Witness for saveCalibration_validation: a 3-point save is rejected and a
valid 4-point save builds the body. -/
theorem saveCalibration_validation_witness :
    handleSaveCalibration [(0,0),(1,0),(1,1)] (some 10) = none
    ∧ handleSaveCalibration [(0,0),(1,0),(1,1),(0,1)] (some 7)
        = some { mode := none, points := [(0,0),(1,0),(1,1),(0,1)], reference_distance := 7 } :=
  ⟨(saveCalibration_validation _ _).1 (Or.inl (by decide)),
   (saveCalibration_validation _ _).2 (by decide) 7 rfl (by decide)⟩

/-- C8 counterexample: after an upload failure the selected-file cell no
longer holds the validated file: onError sets it to null. -/
theorem uploadOnError_file_not_retained :
    (uploadOnError
        { selectedFile := some { name := "a.mp4", size := 100 },
          uploadProgress := 37, uploadedVideoId := none,
          pollingVideo := none, alerts := [] } "server error").selectedFile
      ≠ some { name := "a.mp4", size := 100 } := by
  decide

/-- C8 (amended): on upload failure the controller clears progress to 0 and
surfaces the error message for display, but it also clears the selected-file
reference to null rather than retaining the validated file. -/
theorem uploadOnError_behavior (s : UploadPageState) (msg : String) :
    (uploadOnError s msg).uploadProgress = 0
    ∧ (uploadOnError s msg).selectedFile = none
    ∧ (uploadOnError s msg).alerts = s.alerts ++ [String.append "Upload failed: " msg] :=
  ⟨rfl, rfl, rfl⟩

/-- C9: each omitted config field is transmitted with its documented default
(0.3, 0.7, false, 80.0) and each supplied in-range value (thresholds positive,
speed limit positive, either boolean) is transmitted unchanged: every field of
the POST body equals the supplied value when present and the default
otherwise. -/
theorem process_config_defaults (cfg : ProcessConfigInput)
    (hc : ∀ v, cfg.confidence_threshold = some v → 0 < v ∧ v ≤ 1)
    (hi : ∀ v, cfg.iou_threshold = some v → 0 < v ∧ v ≤ 1)
    (hs : ∀ v, cfg.speed_limit = some v → 0 < v) :
    (videoAPI.process cfg).confidence_threshold = cfg.confidence_threshold.getD 0.3
    ∧ (videoAPI.process cfg).iou_threshold = cfg.iou_threshold.getD 0.7
    ∧ (videoAPI.process cfg).enable_speed_calculation = cfg.enable_speed_calculation.getD false
    ∧ (videoAPI.process cfg).speed_limit = cfg.speed_limit.getD 80.0 :=
  ⟨jsOrQ_pos (fun v hv => (hc v hv).1),
   jsOrQ_pos (fun v hv => (hi v hv).1),
   jsOrB_false _,
   jsOrQ_pos hs⟩

/-- Witness for process_config_defaults: a call supplying only a 0.5
confidence threshold and speed calculation on. -/
theorem process_config_defaults_witness :
    (videoAPI.process { confidence_threshold := some 0.5, iou_threshold := none, enable_speed_calculation := some true, speed_limit := none }).confidence_threshold
      = (some (0.5 : ℚ)).getD 0.3
    ∧ (videoAPI.process { confidence_threshold := some 0.5, iou_threshold := none, enable_speed_calculation := some true, speed_limit := none }).iou_threshold
      = (none : Option ℚ).getD 0.7
    ∧ (videoAPI.process { confidence_threshold := some 0.5, iou_threshold := none, enable_speed_calculation := some true, speed_limit := none }).enable_speed_calculation
      = (some true).getD false
    ∧ (videoAPI.process { confidence_threshold := some 0.5, iou_threshold := none, enable_speed_calculation := some true, speed_limit := none }).speed_limit
      = (none : Option ℚ).getD 80.0 :=
  process_config_defaults _
    (fun v hv => by
      rw [← Option.some.inj hv]
      constructor <;> norm_num)
    (fun v hv => by exact absurd hv (by simp))
    (fun v hv => by exact absurd hv (by simp))

/-- C10: the extension check is case-insensitive (clip.MP4 is accepted), the
extension is taken from the last dot of the filename, and a filename with no
dot at all is always rejected by the allow-list check. -/
theorem fileExt_semantics :
    (handleFileSelect { name := "clip.MP4", size := 1000 }
        = some { name := "clip.MP4", size := 1000 })
    ∧ (∀ pre post : List Char, '.' ∉ post →
        fileExt (String.mk (pre ++ '.' :: post)) = '.' :: jsToLowerCase post)
    ∧ (∀ file : JSFile, '.' ∉ file.name.toList → handleFileSelect file = none) := by
  refine ⟨by decide, ?_, ?_⟩
  · intro pre post hpost
    have hidx : jsLastIndexOf '.' (pre ++ '.' :: post) = pre.length :=
      jsLastIndexOf_append hpost pre
    have htl : (String.mk (pre ++ '.' :: post)).toList = pre ++ '.' :: post := rfl
    simp [fileExt, jsSubstring, htl, hidx, List.drop_left, jsToLowerCase]
  · intro file h
    have hext : fileExt file.name = jsToLowerCase file.name.toList := fileExt_no_dot h
    have hall : ∀ l ∈ validTypes, l.head? = some '.' := by decide
    have hnot : fileExt file.name ∉ validTypes := by
      rw [hext]
      intro hmem
      have hhead := hall _ hmem
      cases hn : file.name.toList with
      | nil => rw [hn] at hhead; simp [jsToLowerCase] at hhead
      | cons ch rest =>
        rw [hn] at hhead
        simp [jsToLowerCase] at hhead
        have hch : ch = '.' := toLower_eq_dot hhead
        subst hch
        exact h (hn ▸ List.mem_cons_self '.' rest)
    simp [handleFileSelect, hnot]

/-- Witness for fileExt_semantics: the last dot determines the extension of
video.backup.MOV, and the dotless name videofile is rejected. -/
theorem fileExt_semantics_witness :
    fileExt (String.mk ("video.backup".toList ++ '.' :: "MOV".toList))
      = '.' :: jsToLowerCase "MOV".toList
    ∧ handleFileSelect { name := "videofile", size := 5 } = none :=
  ⟨fileExt_semantics.2.1 _ _ (by decide),
   fileExt_semantics.2.2 _ (by decide)⟩

end ITMS
